import Mathlib

/-!
Verification of the gesture-detection engine of absmap (src/absmap.py).

The tracker state, its operations (add_sample, get_velocity, get_acceleration,
detect_gesture, clear) and the per-event dispatch step of the main loop are
embedded shallowly: timestamps and times are exact rationals, axis values are
integers, mutation is explicit state passing.  The Python attributes
self.velocity and self.acceleration do not exist until first assigned, so they
are modelled as Option values initialised to none.
-/

/-- A detected gesture direction: the strings up and down in the Python code. -/
inductive Gesture where
  | up
  | down
deriving DecidableEq, Repr

/-- State of the Python class VelocityTracker: configuration, the bounded
sample history (timestamp, value), and the lazily created velocity /
acceleration attributes. -/
structure VelocityTracker where
  velocity_threshold : ℚ
  acceleration_enabled : Bool
  history : List (ℚ × ℤ)
  max_history : ℕ
  velocity : Option ℚ
  acceleration : Option ℚ
deriving DecidableEq, Repr

/-- VelocityTracker.__init__ : empty history, velocity and acceleration
attributes not yet created. -/
def mkTracker (velocity_threshold : ℚ) (acceleration_enabled : Bool)
    (history_size : ℕ) : VelocityTracker :=
  { velocity_threshold := velocity_threshold
    acceleration_enabled := acceleration_enabled
    history := []
    max_history := history_size
    velocity := none
    acceleration := none }

/-- VelocityTracker.clear : self.history.clear(). -/
def VelocityTracker.clear (s : VelocityTracker) : VelocityTracker :=
  { s with history := [] }

/-- VelocityTracker.add_sample : a value of 0 clears the whole history and
returns; otherwise the sample is appended and, if the length now exceeds
max_history, the oldest entry is popped (history.pop(0)). -/
def VelocityTracker.add_sample (s : VelocityTracker) (timestamp : ℚ)
    (value : ℤ) : VelocityTracker :=
  if value = 0 then s.clear
  else
    let h := s.history ++ [(timestamp, value)]
    { s with history := if s.max_history < h.length then h.tail else h }

/-- VelocityTracker.get_velocity : 0.0 under 2 samples; otherwise
(v_last - v_first) / (t_last - t_first) over the first and last buffered
samples, 0.0 when that time difference is 0. -/
def VelocityTracker.get_velocity (s : VelocityTracker) : ℚ :=
  if s.history.length < 2 then 0
  else
    let p1 := s.history.headI
    let p2 := (s.history.getLast?).getD (0, 0)
    let dt := p2.1 - p1.1
    if dt = 0 then 0
    else ((p2.2 - p1.2 : ℤ) : ℚ) / dt

/-- VelocityTracker.get_acceleration : 0.0 when the feature is disabled or
under 3 samples; otherwise checkpoints at the first sample, the sample at
index len // 2 and the last sample, average velocities over the two
sub-intervals, and (vel2 - vel1) / ((dt1 + dt2) / 2), with 0.0 when either
sub-interval has zero duration. -/
def VelocityTracker.get_acceleration (s : VelocityTracker) : ℚ :=
  if s.acceleration_enabled = false ∨ s.history.length < 3 then 0
  else
    let p1 := s.history.headI
    let p2 := (s.history.get? (s.history.length / 2)).getD (0, 0)
    let p3 := (s.history.getLast?).getD (0, 0)
    let dt1 := p2.1 - p1.1
    let dt2 := p3.1 - p2.1
    if dt1 = 0 ∨ dt2 = 0 then 0
    else
      let vel1 := ((p2.2 - p1.2 : ℤ) : ℚ) / dt1
      let vel2 := ((p3.2 - p2.2 : ℤ) : ℚ) / dt2
      (vel2 - vel1) / ((dt1 + dt2) / 2)

/-- VelocityTracker.detect_gesture : returns the updated tracker (the Python
method mutates self.velocity and self.acceleration) together with the
detected gesture, mirroring the source line by line. -/
def VelocityTracker.detect_gesture (s : VelocityTracker) :
    VelocityTracker × Option Gesture :=
  if s.history.length < 2 then (s, none)
  else
    let velocity := s.get_velocity
    let s1 := { s with velocity := some velocity }
    let abs_velocity := |velocity|
    if abs_velocity < s1.velocity_threshold then
      ({ s1 with acceleration := some 0 }, none)
    else
      let s2 :=
        if s1.acceleration_enabled then
          { s1 with acceleration := some s1.get_acceleration }
        else { s1 with acceleration := some 0 }
      let multiplier :=
        if s1.acceleration_enabled then
          let accel := s1.get_acceleration
          if velocity > 0 ∧ accel < 0 then (3 / 2 : ℚ)
          else if velocity < 0 ∧ accel > 0 then (3 / 2 : ℚ)
          else if velocity > 0 ∧ accel > 0 then (7 / 10 : ℚ)
          else if velocity < 0 ∧ accel < 0 then (7 / 10 : ℚ)
          else (1 : ℚ)
        else (1 : ℚ)
      let threshold := s1.velocity_threshold * multiplier
      if abs_velocity < threshold then (s2, none)
      else (s2, some (if velocity > 0 then Gesture.up else Gesture.down))

/-- Written from the words of the spec (section 4.3, step 4): the adaptive
hysteresis multiplier as a function of the acceleration flag and the signs of
velocity and acceleration. -/
def spec_multiplier (acceleration_enabled : Bool) (velocity accel : ℚ) : ℚ :=
  if acceleration_enabled then
    if velocity > 0 ∧ accel < 0 then 3 / 2
    else if velocity < 0 ∧ accel > 0 then 3 / 2
    else if velocity > 0 ∧ accel > 0 then 7 / 10
    else if velocity < 0 ∧ accel < 0 then 7 / 10
    else 1
  else 1

/-- Written from the words of the spec (section 4.3): the classifier decision
procedure, steps 1-6, as a pure function of the tracker state.  Compared
against the gesture component of detect_gesture. -/
def spec_classify (s : VelocityTracker) : Option Gesture :=
  if s.history.length < 2 then none
  else
    let velocity := s.get_velocity
    if |velocity| < s.velocity_threshold then none
    else
      let multiplier :=
        spec_multiplier s.acceleration_enabled velocity s.get_acceleration
      if |velocity| < s.velocity_threshold * multiplier then none
      else if velocity > 0 then some Gesture.up else some Gesture.down

/-- Per-gesture configuration entry as the dispatch loop sees it:
gestures[g] with its optional action value (gesture_config.get, which can in
principle be absent or null before validation). -/
structure GestureEntry where
  action : Option Unit
deriving DecidableEq, Repr

/-- The slice of the loaded configuration the dispatch loop reads. -/
structure LoopConfig where
  cooldown_ms : ℚ
  up : Option GestureEntry
  down : Option GestureEntry
deriving DecidableEq, Repr

/-- gestures[gesture] lookup in the main loop. -/
def LoopConfig.entryFor (cfg : LoopConfig) : Gesture → Option GestureEntry
  | Gesture.up => cfg.up
  | Gesture.down => cfg.down

/-- validate_config guarantees that every configured gesture carries an
action with a keys or command payload, so its action value is present. -/
def LoopConfig.Validated (cfg : LoopConfig) : Prop :=
  (∀ en, cfg.up = some en → en.action.isSome) ∧
  (∀ en, cfg.down = some en → en.action.isSome)

/-- Mutable state of the main loop: the tracker plus last_gesture_time. -/
structure LoopState where
  tracker : VelocityTracker
  last_gesture_time : ℚ
deriving DecidableEq, Repr

/-- One incoming axis event as the loop consumes it: event.timestamp() in
seconds, event.value, and the wall-clock time time.time() * 1000 observed
when the event is processed (an independent clock in the source). -/
structure InEvent where
  timestamp : ℚ
  value : ℤ
  now_ms : ℚ
deriving DecidableEq, Repr

/-- One iteration of the main loop body for a matching axis event: add the
sample, detect a gesture, apply the cooldown check, look the gesture up in
the configuration, update last_gesture_time, execute the action and clear the
tracker.  Returns the new loop state and the dispatched gesture, if any
(some g exactly when execute_action runs). -/
def loop_step (cfg : LoopConfig) (st : LoopState) (e : InEvent) :
    LoopState × Option Gesture :=
  let tr := st.tracker.add_sample e.timestamp e.value
  let det := tr.detect_gesture
  match det.2 with
  | none => ({ st with tracker := det.1 }, none)
  | some g =>
    if e.now_ms - st.last_gesture_time < cfg.cooldown_ms then
      ({ st with tracker := det.1 }, none)
    else
      match cfg.entryFor g with
      | none => ({ st with tracker := det.1 }, none)
      | some entry =>
        match entry.action with
        | none => ({ tracker := det.1, last_gesture_time := e.now_ms }, none)
        | some _ =>
          ({ tracker := det.1.clear, last_gesture_time := e.now_ms }, some g)

/-- The main loop over a finite prefix of the event stream, collecting the
dispatched gestures with the wall-clock times at which they were dispatched. -/
def run_loop (cfg : LoopConfig) (st : LoopState) :
    List InEvent → LoopState × List (ℚ × Gesture)
  | [] => (st, [])
  | e :: es =>
    let step := loop_step cfg st e
    let rest := run_loop cfg step.1 es
    (rest.1, match step.2 with
             | none => rest.2
             | some g => (e.now_ms, g) :: rest.2)

lemma get_acceleration_set_velocity (s : VelocityTracker) (v : Option ℚ) :
    ({ s with velocity := v } : VelocityTracker).get_acceleration =
      s.get_acceleration := rfl

lemma detect_gesture_eq_spec (s : VelocityTracker) :
    s.detect_gesture.2 = spec_classify s := by
  unfold VelocityTracker.detect_gesture spec_classify spec_multiplier
  simp only [apply_ite (@Prod.snd VelocityTracker (Option Gesture)),
    apply_ite (@Option.some Gesture)]
  rfl

lemma detect_gesture_below_base (s : VelocityTracker)
    (h : |s.get_velocity| < s.velocity_threshold) :
    s.detect_gesture.2 = none := by
  rw [detect_gesture_eq_spec]
  unfold spec_classify
  split_ifs <;> simp_all

/-- An abstract call against the sample buffer: add_sample or clear. -/
inductive BufOp where
  | addS (timestamp : ℚ) (value : ℤ)
  | clearB
deriving DecidableEq, Repr

/-- Interpret one buffer call on the tracker. -/
def applyOp (s : VelocityTracker) : BufOp → VelocityTracker
  | BufOp.addS t v => s.add_sample t v
  | BufOp.clearB => s.clear

/-- Interpret a sequence of buffer calls, oldest first. -/
def applyOps (s : VelocityTracker) (ops : List BufOp) : VelocityTracker :=
  ops.foldl applyOp s

lemma detect_gesture_preserves_history (s : VelocityTracker) :
    s.detect_gesture.1.history = s.history := by
  unfold VelocityTracker.detect_gesture
  simp only [apply_ite (@Prod.fst VelocityTracker (Option Gesture))]
  split_ifs <;> rfl

/-- A tracker whose buffered motion is slower than the base threshold:
velocity (14 - 10) / 2 = 2 against threshold 3. -/
def trkSlow : VelocityTracker :=
  { velocity_threshold := 3
    acceleration_enabled := false
    history := [(0, 10), (2, 14)]
    max_history := 5
    velocity := none
    acceleration := none }

/-- C1: detect_gesture implements exactly the decision procedure of the spec:
None under 2 samples; None whenever the absolute velocity is below the base
threshold (so Up or Down is never returned below it, whatever the
acceleration); otherwise the adaptive multiplier 1.5 on strictly opposite
signs of velocity and acceleration, 0.7 on strictly equal signs, 1.0 in every
other case including acceleration 0 or tracking disabled; None when the
absolute velocity is below threshold times multiplier; else Up when the
velocity is positive, Down otherwise. -/
theorem C1_detect_gesture_decision_procedure (s : VelocityTracker) :
    s.detect_gesture.2 = spec_classify s ∧
    (|s.get_velocity| < s.velocity_threshold → s.detect_gesture.2 = none) :=
  ⟨detect_gesture_eq_spec s, detect_gesture_below_base s⟩

/-- Witness for C1, on a concrete below-threshold buffer. -/
theorem C1_witness :
    |trkSlow.get_velocity| < trkSlow.velocity_threshold ∧
    trkSlow.detect_gesture.2 = none := by
  constructor
  · norm_num [trkSlow, VelocityTracker.get_velocity]
  · exact (C1_detect_gesture_decision_procedure trkSlow).2
      (by norm_num [trkSlow, VelocityTracker.get_velocity])

/-- A tracker with acceleration tracking on, base threshold 3, buffered
velocity (15 - 10) / 2 = 2.5 and positive acceleration: checkpoints (0,10),
(1,11), (2,15) give vel1 = 1, vel2 = 4, acceleration 3. -/
def trkC2 : VelocityTracker :=
  { velocity_threshold := 3
    acceleration_enabled := true
    history := [(0, 10), (1, 11), (2, 15)]
    max_history := 5
    velocity := none
    acceleration := none }

/-- C2 counterexample: with acceleration enabled, velocity_threshold 3,
buffered velocity 2.5 and strictly positive acceleration, detect_gesture
returns None, not Up: the base-threshold comparison in the source runs before
the multiplier is computed, so 2.5 < 3 already rejects the motion. -/
theorem C2_counterexample :
    trkC2.velocity_threshold = 3 ∧ trkC2.acceleration_enabled = true ∧
    trkC2.get_velocity = 5 / 2 ∧ 0 < trkC2.get_acceleration ∧
    trkC2.detect_gesture.2 = none := by
  refine ⟨rfl, rfl, ?_, ?_, ?_⟩
  · norm_num [trkC2, VelocityTracker.get_velocity]
  · norm_num [trkC2, VelocityTracker.get_acceleration]
  · norm_num [trkC2, VelocityTracker.detect_gesture, VelocityTracker.get_velocity,
      VelocityTracker.get_acceleration, abs_lt]

/-- C2 amended: with acceleration tracking enabled and velocity_threshold 3, a
buffer whose computed velocity is 2.5 with positive acceleration is classified
None by detect_gesture: the base-threshold check precedes the multiplier, so a
velocity below the base threshold is always rejected; the 0.7 multiplier can
only be reached by velocities that already clear the base threshold. -/
theorem C2_amended_below_base_is_none (s : VelocityTracker)
    (hth : s.velocity_threshold = 3) (hae : s.acceleration_enabled = true)
    (hv : s.get_velocity = 5 / 2) :
    s.detect_gesture.2 = none := by
  apply detect_gesture_below_base
  rw [hv, hth, abs_lt]
  norm_num

/-- Witness for the amended C2, on the concrete tracker trkC2. -/
theorem C2_witness :
    trkC2.velocity_threshold = 3 ∧ trkC2.acceleration_enabled = true ∧
    trkC2.get_velocity = 5 / 2 ∧ trkC2.detect_gesture.2 = none := by
  refine ⟨rfl, rfl, ?_, ?_⟩
  · norm_num [trkC2, VelocityTracker.get_velocity]
  · exact C2_amended_below_base_is_none trkC2 rfl rfl
      (by norm_num [trkC2, VelocityTracker.get_velocity])

/-- A tracker holding a single sample but stale velocity and acceleration
attributes from an earlier call. -/
def trkStale : VelocityTracker :=
  { velocity_threshold := 3
    acceleration_enabled := false
    history := [(0, 5)]
    max_history := 5
    velocity := some 42
    acceleration := some 7 }

/-- C9 counterexample: on a buffer with fewer than 2 samples detect_gesture
returns before touching the velocity and acceleration attributes, so both keep
their stale values (42 and 7) instead of being overwritten with the freshly
computed velocity (0 here). -/
theorem C9_counterexample :
    trkStale.history.length < 2 ∧
    trkStale.get_velocity = 0 ∧
    trkStale.detect_gesture.1.velocity = some 42 ∧
    trkStale.detect_gesture.1.acceleration = some 7 ∧
    trkStale.detect_gesture.1.velocity ≠ some trkStale.get_velocity := by
  refine ⟨by norm_num [trkStale], ?_, ?_, ?_, ?_⟩
  · norm_num [trkStale, VelocityTracker.get_velocity]
  · norm_num [trkStale, VelocityTracker.detect_gesture]
  · norm_num [trkStale, VelocityTracker.detect_gesture]
  · norm_num [trkStale, VelocityTracker.detect_gesture,
      VelocityTracker.get_velocity]

/-- C9 amended: on every call to detect_gesture with at least 2 buffered
samples, the stored velocity and acceleration are both overwritten fresh -
velocity to the newly computed value, acceleration to 0.0 when below the base
threshold or when tracking is disabled and to the fresh estimate otherwise;
with fewer than 2 samples the call returns None leaving the whole tracker
state unchanged. -/
theorem C9_amended_fields_fresh (s : VelocityTracker) :
    (s.history.length < 2 → s.detect_gesture.1 = s) ∧
    (2 ≤ s.history.length →
      s.detect_gesture.1.velocity = some s.get_velocity ∧
      s.detect_gesture.1.acceleration = some
        (if |s.get_velocity| < s.velocity_threshold then 0
         else if s.acceleration_enabled then s.get_acceleration else 0)) := by
  constructor
  · intro h
    unfold VelocityTracker.detect_gesture
    simp [h]
  · intro h
    have h2 : ¬ s.history.length < 2 := by omega
    unfold VelocityTracker.detect_gesture
    simp only [h2, if_false, get_acceleration_set_velocity,
      apply_ite (@Prod.fst VelocityTracker (Option Gesture)),
      apply_ite VelocityTracker.velocity, apply_ite VelocityTracker.acceleration]
    by_cases hb : |s.get_velocity| < s.velocity_threshold
    · simp [hb]
    · by_cases hae : s.acceleration_enabled <;>
        · simp only [hb, hae, if_false, if_true]
          split_ifs <;> simp_all

/-- Witness for the amended C9, on a concrete two-sample tracker. -/
theorem C9_witness :
    2 ≤ trkSlow.history.length ∧
    trkSlow.detect_gesture.1.velocity = some trkSlow.get_velocity ∧
    trkSlow.detect_gesture.1.acceleration = some
      (if |trkSlow.get_velocity| < trkSlow.velocity_threshold then 0
       else if trkSlow.acceleration_enabled then trkSlow.get_acceleration
       else 0) := by
  refine ⟨by norm_num [trkSlow], ?_, ?_⟩
  · exact ((C9_amended_fields_fresh trkSlow).2 (by norm_num [trkSlow])).1
  · exact ((C9_amended_fields_fresh trkSlow).2 (by norm_num [trkSlow])).2

/-- The buffer invariant of the spec: the history never exceeds the capacity
and never stores a 0-valued sample. -/
def BufInv (s : VelocityTracker) : Prop :=
  s.history.length ≤ s.max_history ∧ ∀ p ∈ s.history, p.2 ≠ 0

lemma add_sample_max_history (s : VelocityTracker) (t : ℚ) (v : ℤ) :
    (s.add_sample t v).max_history = s.max_history := by
  unfold VelocityTracker.add_sample VelocityTracker.clear
  split_ifs <;> rfl

lemma clear_bufInv (s : VelocityTracker) : BufInv s.clear := by
  constructor
  · simp [VelocityTracker.clear]
  · simp [VelocityTracker.clear]

lemma add_sample_bufInv (s : VelocityTracker) (t : ℚ) (v : ℤ)
    (h : BufInv s) : BufInv (s.add_sample t v) := by
  unfold VelocityTracker.add_sample
  split_ifs with h0
  · exact clear_bufInv s
  · obtain ⟨hlen, hmem⟩ := h
    by_cases hover : s.max_history < (s.history ++ [(t, v)]).length
    · constructor
      · simp only [hover, if_true]
        simp only [List.length_tail, List.length_append, List.length_singleton]
        omega
      · intro p hp
        simp only [hover, if_true] at hp
        have hp' : p ∈ s.history ++ [(t, v)] := List.mem_of_mem_tail hp
        rcases List.mem_append.mp hp' with hl | hr
        · exact hmem p hl
        · simp only [List.mem_singleton] at hr
          subst hr
          exact h0
    · constructor
      · simp only [hover, if_false]
        simp only [List.length_append, List.length_singleton] at hover ⊢
        omega
      · intro p hp
        simp only [hover, if_false] at hp
        rcases List.mem_append.mp hp with hl | hr
        · exact hmem p hl
        · simp only [List.mem_singleton] at hr
          subst hr
          exact h0

lemma applyOp_bufInv (s : VelocityTracker) (op : BufOp) (h : BufInv s) :
    BufInv (applyOp s op) := by
  cases op with
  | addS t v => exact add_sample_bufInv s t v h
  | clearB => exact clear_bufInv s

lemma applyOp_max_history (s : VelocityTracker) (op : BufOp) :
    (applyOp s op).max_history = s.max_history := by
  cases op with
  | addS t v => exact add_sample_max_history s t v
  | clearB => rfl

lemma applyOps_bufInv (ops : List BufOp) (s : VelocityTracker) (h : BufInv s) :
    BufInv (applyOps s ops) := by
  induction ops generalizing s with
  | nil => exact h
  | cons op ops ih => exact ih (applyOp s op) (applyOp_bufInv s op h)

lemma applyOps_max_history (ops : List BufOp) (s : VelocityTracker) :
    (applyOps s ops).max_history = s.max_history := by
  induction ops generalizing s with
  | nil => rfl
  | cons op ops ih => rw [applyOps, List.foldl_cons, ← applyOps, ih,
      applyOp_max_history]

lemma add_sample_zero_clears (s : VelocityTracker) (t : ℚ) :
    (s.add_sample t 0).history = [] := by
  unfold VelocityTracker.add_sample
  simp [VelocityTracker.clear]

lemma add_sample_full_fifo (s : VelocityTracker) (t : ℚ) (v : ℤ)
    (hv : v ≠ 0) (hfull : s.history.length = s.max_history)
    (hpos : 0 < s.max_history) :
    (s.add_sample t v).history = s.history.tail ++ [(t, v)] := by
  unfold VelocityTracker.add_sample
  simp only [hv, if_false]
  have hover : s.max_history < (s.history ++ [(t, v)]).length := by
    simp only [List.length_append, List.length_singleton]
    omega
  have hne : s.history ≠ [] := by
    intro hnil
    rw [hnil] at hfull
    simp at hfull
    omega
  simp only [hover, if_true]
  exact List.tail_append_singleton_of_ne_nil hne

/-- C3: for every sequence of add_sample and clear calls starting from a fresh
tracker of capacity hs, the history length never exceeds hs; a sample with
value 0 clears the whole buffer instead of being appended; no stored sample
has value 0; and when an append would exceed the capacity exactly the single
oldest entry is evicted (FIFO). -/
theorem C3_buffer_invariants (velocity_threshold : ℚ)
    (acceleration_enabled : Bool) (hs : ℕ) (ops : List BufOp) :
    (applyOps (mkTracker velocity_threshold acceleration_enabled hs) ops).history.length ≤ hs ∧
    (∀ p ∈ (applyOps (mkTracker velocity_threshold acceleration_enabled hs) ops).history,
      p.2 ≠ 0) ∧
    (∀ t, ((applyOps (mkTracker velocity_threshold acceleration_enabled hs) ops).add_sample
      t 0).history = []) ∧
    (∀ t v, v ≠ 0 →
      (applyOps (mkTracker velocity_threshold acceleration_enabled hs) ops).history.length = hs →
      0 < hs →
      ((applyOps (mkTracker velocity_threshold acceleration_enabled hs) ops).add_sample
        t v).history =
        (applyOps (mkTracker velocity_threshold acceleration_enabled hs) ops).history.tail
          ++ [(t, v)]) := by
  have hmax : (applyOps (mkTracker velocity_threshold acceleration_enabled hs) ops).max_history
      = hs := applyOps_max_history ops _
  have hinv : BufInv (applyOps (mkTracker velocity_threshold acceleration_enabled hs) ops) :=
    applyOps_bufInv ops _ (by constructor <;> simp [mkTracker])
  refine ⟨?_, hinv.2, ?_, ?_⟩
  · have hlen := hinv.1
    rw [hmax] at hlen
    exact hlen
  · intro t
    exact add_sample_zero_clears _ t
  · intro t v hv hlen hpos
    exact add_sample_full_fifo _ t v hv (by rw [hlen, hmax]) (by rw [hmax]; exact hpos)

/-- Witness for C3: a concrete run with capacity 2, a 0-valued sample clearing
the buffer, and a FIFO eviction. -/
theorem C3_witness :
    (applyOps (mkTracker 3 false 2) [BufOp.addS 0 4, BufOp.addS 1 6]).history.length ≤ 2 ∧
    (∀ t, ((applyOps (mkTracker 3 false 2) [BufOp.addS 0 4, BufOp.addS 1 6]).add_sample
      t 0).history = []) ∧
    ((applyOps (mkTracker 3 false 2) [BufOp.addS 0 4, BufOp.addS 1 6]).add_sample 2 9).history
      = [(1, 6), (2, 9)] := by
  have hmain := C3_buffer_invariants 3 false 2 [BufOp.addS 0 4, BufOp.addS 1 6]
  refine ⟨hmain.1, hmain.2.2.1, ?_⟩
  have hfifo := hmain.2.2.2 2 9 (by norm_num)
    (by norm_num [applyOps, applyOp, mkTracker, VelocityTracker.add_sample])
    (by norm_num)
  rw [hfifo]
  norm_num [applyOps, applyOp, mkTracker, VelocityTracker.add_sample]

lemma headI_eq_getD (l : List (ℚ × ℤ)) (d : ℚ × ℤ) (h : l ≠ []) :
    l.headI = l.getD 0 d := by
  cases l with
  | nil => exact absurd rfl h
  | cons a t => rfl

/-- C4: get_velocity returns 0 under 2 samples; otherwise it divides the value
difference of the last and first buffered samples by their time difference,
returning 0 when that time difference is 0, and ignores every intermediate
sample. -/
theorem C4_get_velocity (s : VelocityTracker) (t1 : ℚ) (v1 : ℤ)
    (mid : List (ℚ × ℤ)) (t2 : ℚ) (v2 : ℤ) :
    (s.history.length < 2 → s.get_velocity = 0) ∧
    (s.history = (t1, v1) :: (mid ++ [(t2, v2)]) →
      s.get_velocity =
        if t2 - t1 = 0 then 0 else ((v2 - v1 : ℤ) : ℚ) / (t2 - t1)) := by
  constructor
  · intro h
    unfold VelocityTracker.get_velocity
    simp [h]
  · intro hh
    have h1 : s.history.headI = (t1, v1) := by rw [hh]; rfl
    have h2 : s.history.getLast? = some (t2, v2) := by
      rw [hh]
      exact List.getLast?_concat ((t1, v1) :: mid)
    have hlen : ¬ s.history.length < 2 := by
      rw [hh]
      simp
    unfold VelocityTracker.get_velocity
    simp only [if_neg hlen, h1, h2, Option.getD_some]

/-- A buffer with an intermediate sample: endpoints (0,10) and (2,20). -/
def trkMid : VelocityTracker :=
  { velocity_threshold := 3
    acceleration_enabled := false
    history := [(0, 10), (1, 15), (2, 20)]
    max_history := 5
    velocity := none
    acceleration := none }

/-- A buffer with two samples of equal value: velocity 0 through the
division, not the guard. -/
def trkFlat : VelocityTracker :=
  { velocity_threshold := 3
    acceleration_enabled := false
    history := [(0, 10), (1, 10)]
    max_history := 5
    velocity := none
    acceleration := none }

/-- Witness for C4: samples (0,10),(1,15),(2,20) give velocity 5 using only
the endpoints, and samples (0,10),(1,10) give velocity 0. -/
theorem C4_witness :
    trkMid.get_velocity = 5 ∧ trkFlat.get_velocity = 0 := by
  constructor
  · have h := (C4_get_velocity trkMid 0 10 [(1, 15)] 2 20).2 rfl
    rw [h]
    norm_num
  · have h := (C4_get_velocity trkFlat 0 10 [] 1 10).2 rfl
    rw [h]
    norm_num

/-- C5: get_acceleration returns 0 when the feature is disabled or fewer than
3 samples are buffered (even with the feature on); otherwise, with checkpoints
at index 0, index len / 2 (integer floor) and index len - 1, it returns
(vel2 - vel1) / ((dt1 + dt2) / 2) for the two sub-interval average velocities,
and 0 when either sub-interval has zero duration. -/
theorem C5_get_acceleration (s : VelocityTracker) :
    ((s.acceleration_enabled = false ∨ s.history.length < 3) →
      s.get_acceleration = 0) ∧
    (s.acceleration_enabled = true → 3 ≤ s.history.length →
      s.get_acceleration =
        (let p1 := s.history.getD 0 (0, 0)
         let p2 := s.history.getD (s.history.length / 2) (0, 0)
         let p3 := s.history.getD (s.history.length - 1) (0, 0)
         if p2.1 - p1.1 = 0 ∨ p3.1 - p2.1 = 0 then 0
         else
           (((p3.2 - p2.2 : ℤ) : ℚ) / (p3.1 - p2.1) -
             ((p2.2 - p1.2 : ℤ) : ℚ) / (p2.1 - p1.1)) /
             (((p2.1 - p1.1) + (p3.1 - p2.1)) / 2))) := by
  constructor
  · intro h
    unfold VelocityTracker.get_acceleration
    simp only [if_pos h]
  · intro hae hlen
    have hne : s.history ≠ [] := by
      intro h0
      rw [h0] at hlen
      simp at hlen
    have hc : ¬ (s.acceleration_enabled = false ∨ s.history.length < 3) := by
      push_neg
      exact ⟨by simp [hae], by omega⟩
    unfold VelocityTracker.get_acceleration
    simp only [if_neg hc, headI_eq_getD s.history (0, 0) hne,
      List.getLast?_eq_get?]
    rfl

/-- Three samples with acceleration on: checkpoints (0,10),(1,11),(2,15),
vel1 = 1, vel2 = 4, acceleration 3. -/
def trkC5 : VelocityTracker :=
  { velocity_threshold := 3
    acceleration_enabled := true
    history := [(0, 10), (1, 11), (2, 15)]
    max_history := 5
    velocity := none
    acceleration := none }

/-- Two samples with acceleration on: under 3 samples still gives 0. -/
def trkAcc2 : VelocityTracker :=
  { velocity_threshold := 3
    acceleration_enabled := true
    history := [(0, 10), (1, 11)]
    max_history := 5
    velocity := none
    acceleration := none }

/-- Witness for C5: the three-checkpoint formula on a concrete buffer gives 3,
and a two-sample buffer gives 0 even with acceleration enabled. -/
theorem C5_witness :
    trkC5.get_acceleration = 3 ∧ trkAcc2.get_acceleration = 0 := by
  constructor
  · have h := (C5_get_acceleration trkC5).2 rfl (by norm_num [trkC5])
    rw [h]
    norm_num [trkC5, List.getD]
  · exact (C5_get_acceleration trkAcc2).1 (Or.inr (by norm_num [trkAcc2]))

lemma validated_entry (cfg : LoopConfig) (hv : cfg.Validated) (g : Gesture)
    (en : GestureEntry) (h : cfg.entryFor g = some en) : en.action.isSome := by
  cases g with
  | up => exact hv.1 en h
  | down => exact hv.2 en h

lemma loop_step_none_last (cfg : LoopConfig) (st : LoopState) (e : InEvent)
    (hv : cfg.Validated) (h : (loop_step cfg st e).2 = none) :
    (loop_step cfg st e).1.last_gesture_time = st.last_gesture_time := by
  unfold loop_step at h ⊢
  rcases hdet : (st.tracker.add_sample e.timestamp e.value).detect_gesture.2
    with _ | g
  · simp only [hdet]
  · simp only [hdet] at h ⊢
    by_cases hcd : e.now_ms - st.last_gesture_time < cfg.cooldown_ms
    · rw [if_pos hcd]
    · rw [if_neg hcd] at h ⊢
      rcases hentry : cfg.entryFor g with _ | en
      · simp only [hentry]
      · have ha := validated_entry cfg hv g en hentry
        rcases haction : en.action with _ | u
        · rw [haction] at ha
          simp at ha
        · simp only [hentry, haction] at h
          exact absurd h (Option.some_ne_none g)

lemma loop_step_none_history (cfg : LoopConfig) (st : LoopState) (e : InEvent)
    (h : (loop_step cfg st e).2 = none) :
    (loop_step cfg st e).1.tracker.history =
      (st.tracker.add_sample e.timestamp e.value).history := by
  unfold loop_step at h ⊢
  rcases hdet : (st.tracker.add_sample e.timestamp e.value).detect_gesture.2
    with _ | g
  · simp only [hdet]
    exact detect_gesture_preserves_history _
  · simp only [hdet] at h ⊢
    by_cases hcd : e.now_ms - st.last_gesture_time < cfg.cooldown_ms
    · rw [if_pos hcd]
      exact detect_gesture_preserves_history _
    · rw [if_neg hcd] at h ⊢
      rcases hentry : cfg.entryFor g with _ | en
      · simp only [hentry]
        exact detect_gesture_preserves_history _
      · rcases haction : en.action with _ | u
        · simp only [hentry, haction]
          exact detect_gesture_preserves_history _
        · simp only [hentry, haction] at h
          exact absurd h (Option.some_ne_none g)

lemma loop_step_some_facts (cfg : LoopConfig) (st : LoopState) (e : InEvent)
    (g : Gesture) (h : (loop_step cfg st e).2 = some g) :
    cfg.cooldown_ms ≤ e.now_ms - st.last_gesture_time ∧
    (loop_step cfg st e).1.last_gesture_time = e.now_ms ∧
    (loop_step cfg st e).1.tracker.history = [] := by
  unfold loop_step at h ⊢
  rcases hdet : (st.tracker.add_sample e.timestamp e.value).detect_gesture.2
    with _ | g'
  · simp only [hdet] at h
    exact absurd h.symm (Option.some_ne_none g)
  · simp only [hdet] at h ⊢
    by_cases hcd : e.now_ms - st.last_gesture_time < cfg.cooldown_ms
    · rw [if_pos hcd] at h
      simp at h
    · rw [if_neg hcd] at h ⊢
      rcases hentry : cfg.entryFor g' with _ | en
      · simp only [hentry] at h
        exact absurd h.symm (Option.some_ne_none g)
      · rcases haction : en.action with _ | u
        · simp only [hentry, haction] at h
          exact absurd h.symm (Option.some_ne_none g)
        · simp only [hentry, haction] at h ⊢
          refine ⟨by linarith [not_lt.mp hcd], by trivial, by trivial⟩

lemma run_loop_chain (cfg : LoopConfig) (hv : cfg.Validated)
    (es : List InEvent) : ∀ st : LoopState,
    List.Chain (fun a b => cfg.cooldown_ms ≤ b - a) st.last_gesture_time
      ((run_loop cfg st es).2.map Prod.fst) := by
  induction es with
  | nil =>
    intro st
    simp [run_loop]
  | cons e es ih =>
    intro st
    rw [run_loop]
    rcases hstep : (loop_step cfg st e).2 with _ | g
    · simp only [hstep]
      have hlast := loop_step_none_last cfg st e hv hstep
      have hch := ih (loop_step cfg st e).1
      rw [hlast] at hch
      exact hch
    · simp only [hstep, List.map_cons]
      have hfacts := loop_step_some_facts cfg st e g hstep
      exact List.Chain.cons hfacts.1 (hfacts.2.1 ▸ ih (loop_step cfg st e).1)

/-- A tracker that accumulated one sample at t = 0.2 s. -/
def trkC6 : VelocityTracker :=
  { velocity_threshold := 3
    acceleration_enabled := false
    history := [(1 / 5, 10)]
    max_history := 5
    velocity := none
    acceleration := none }

/-- Loop state right after a gesture was dispatched at wall time 0 ms. -/
def stC6 : LoopState :=
  { tracker := trkC6, last_gesture_time := 0 }

/-- A configuration with cooldown 300 ms and actions bound to both gestures. -/
def cfg300 : LoopConfig :=
  { cooldown_ms := 300
    up := some { action := some () }
    down := some { action := some () } }

/-- A fast upward sample processed at wall time 250 ms. -/
def evC6a : InEvent := { timestamp := 1 / 4, value := 20, now_ms := 250 }

/-- A fast upward sample processed at wall time 301 ms. -/
def evC6b : InEvent := { timestamp := 301 / 1000, value := 20, now_ms := 301 }

/-- C6: a detected gesture is dispatched only when now_ms minus
last_gesture_time is at least cooldown_ms, and (for a validated
configuration) last_gesture_time changes only when a dispatch occurs, to the
dispatch time - hence consecutive dispatched gestures are always at least
cooldown_ms apart; concretely, after a dispatch at wall time 0 with cooldown
300 ms a qualifying gesture at 250 ms is suppressed and one at 301 ms is
accepted. -/
theorem C6_cooldown_gating (cfg : LoopConfig) (st : LoopState) (e : InEvent)
    (es : List InEvent) (g : Gesture) (hv : cfg.Validated) :
    ((loop_step cfg st e).2 = some g →
      cfg.cooldown_ms ≤ e.now_ms - st.last_gesture_time ∧
      (loop_step cfg st e).1.last_gesture_time = e.now_ms) ∧
    ((loop_step cfg st e).2 = none →
      (loop_step cfg st e).1.last_gesture_time = st.last_gesture_time) ∧
    List.Chain (fun a b => cfg.cooldown_ms ≤ b - a) st.last_gesture_time
      ((run_loop cfg st es).2.map Prod.fst) ∧
    (loop_step cfg300 stC6 evC6a).2 = none ∧
    (loop_step cfg300 stC6 evC6b).2 = some Gesture.up := by
  refine ⟨?_, ?_, run_loop_chain cfg hv es st, ?_, ?_⟩
  · intro h
    exact ⟨(loop_step_some_facts cfg st e g h).1,
      (loop_step_some_facts cfg st e g h).2.1⟩
  · exact loop_step_none_last cfg st e hv
  · norm_num [loop_step, cfg300, stC6, trkC6, evC6a, LoopConfig.entryFor,
      VelocityTracker.add_sample, VelocityTracker.clear,
      VelocityTracker.detect_gesture, VelocityTracker.get_velocity, abs_lt]
  · norm_num [loop_step, cfg300, stC6, trkC6, evC6b, LoopConfig.entryFor,
      VelocityTracker.add_sample, VelocityTracker.clear,
      VelocityTracker.detect_gesture, VelocityTracker.get_velocity, abs_lt]

/-- Witness for C6, instantiating the validated configuration cfg300 and the
suppressed / accepted events of the claim. -/
theorem C6_witness :
    cfg300.Validated ∧
    (loop_step cfg300 stC6 evC6a).2 = none ∧
    (loop_step cfg300 stC6 evC6b).2 = some Gesture.up := by
  have hv : cfg300.Validated := by
    constructor <;> (intro en hEn; cases hEn; rfl)
  exact ⟨hv, (C6_cooldown_gating cfg300 stC6 evC6a [] Gesture.up hv).2.2.2.1,
    (C6_cooldown_gating cfg300 stC6 evC6b [] Gesture.up hv).2.2.2.2⟩

/-- C7: within one loop iteration the gesture-handling phase clears the
sample history only on an actual dispatch: when no gesture is dispatched
(no gesture, cooldown suppression, unbound gesture, or absent action) the
history stays exactly what add_sample left, and on a dispatched gesture the
history is cleared. -/
theorem C7_clear_only_on_dispatch (cfg : LoopConfig) (st : LoopState)
    (e : InEvent) :
    ((loop_step cfg st e).2 = none →
      (loop_step cfg st e).1.tracker.history =
        (st.tracker.add_sample e.timestamp e.value).history) ∧
    (∀ g, (loop_step cfg st e).2 = some g →
      (loop_step cfg st e).1.tracker.history = []) := by
  constructor
  · exact loop_step_none_history cfg st e
  · intro g h
    exact (loop_step_some_facts cfg st e g h).2.2

/-- Witness for C7: the suppressed event at 250 ms leaves the two accumulated
samples in place, and the dispatched event at 301 ms leaves an empty buffer. -/
theorem C7_witness :
    (loop_step cfg300 stC6 evC6a).1.tracker.history =
      (stC6.tracker.add_sample evC6a.timestamp evC6a.value).history ∧
    (loop_step cfg300 stC6 evC6b).1.tracker.history = [] := by
  constructor
  · apply (C7_clear_only_on_dispatch cfg300 stC6 evC6a).1
    norm_num [loop_step, cfg300, stC6, trkC6, evC6a, LoopConfig.entryFor,
      VelocityTracker.add_sample, VelocityTracker.clear,
      VelocityTracker.detect_gesture, VelocityTracker.get_velocity, abs_lt]
  · apply (C7_clear_only_on_dispatch cfg300 stC6 evC6b).2 Gesture.up
    norm_num [loop_step, cfg300, stC6, trkC6, evC6b, LoopConfig.entryFor,
      VelocityTracker.add_sample, VelocityTracker.clear,
      VelocityTracker.detect_gesture, VelocityTracker.get_velocity, abs_lt]

/-- Configuration for the end-to-end run: cooldown 300 ms, an action bound to
the up gesture only. -/
def cfgC8 : LoopConfig :=
  { cooldown_ms := 300
    up := some { action := some () }
    down := none }

/-- Fresh loop state: empty tracker with threshold 3, capacity 5, last
gesture time 0. -/
def stC8 : LoopState :=
  { tracker := mkTracker 3 false 5, last_gesture_time := 0 }

/-- Two identical monotonic rises 0 to 50, five samples 10 ms apart each, the
second starting after the cooldown has lapsed; now_ms follows the sample
clock. -/
def riseTwice : List InEvent :=
  [ { timestamp := 1, value := 0, now_ms := 1000 }
  , { timestamp := 101 / 100, value := 20, now_ms := 1010 }
  , { timestamp := 102 / 100, value := 30, now_ms := 1020 }
  , { timestamp := 103 / 100, value := 40, now_ms := 1030 }
  , { timestamp := 104 / 100, value := 50, now_ms := 1040 }
  , { timestamp := 2, value := 0, now_ms := 2000 }
  , { timestamp := 201 / 100, value := 20, now_ms := 2010 }
  , { timestamp := 202 / 100, value := 30, now_ms := 2020 }
  , { timestamp := 203 / 100, value := 40, now_ms := 2030 }
  , { timestamp := 204 / 100, value := 50, now_ms := 2040 } ]

/-- C8: feeding the loop a monotonic rise over five samples 10 ms apart with
an action bound to Up produces exactly one Up dispatch, immediately after
which the buffer is empty; an identical rise after the cooldown has passed
produces exactly one more dispatch - two in total, no double-fire within one
rise. -/
theorem C8_end_to_end :
    (run_loop cfgC8 stC8 riseTwice).2 = [(1020, Gesture.up), (2020, Gesture.up)] ∧
    (run_loop cfgC8 stC8 (riseTwice.take 3)).1.tracker.history = [] := by
  constructor <;>
    norm_num [riseTwice, cfgC8, stC8, mkTracker, run_loop, loop_step,
      LoopConfig.entryFor, VelocityTracker.add_sample, VelocityTracker.clear,
      VelocityTracker.detect_gesture, VelocityTracker.get_velocity,
      VelocityTracker.get_acceleration, abs_lt, List.take]

/-- C10: detect_gesture never modifies the sample history (and get_velocity
and get_acceleration are embedded as pure functions of the state, so they
cannot): the history after any detect_gesture call is the history before it;
only add_sample and clear change it. -/
theorem C10_detect_gesture_preserves_history (s : VelocityTracker) :
    s.detect_gesture.1.history = s.history :=
  detect_gesture_preserves_history s
